import Mathlib

/-!
Verification of the `response` package of `function-sdk-go`
(`src/response/response.go`): builder helpers for `RunFunctionResponse`
values. Pointers and nil-able protobuf fields are modelled with `Option`,
Go maps with association lists, and Go errors with their message strings.
-/

namespace FnSDK

/-- Modelled from the spec: context and structured values are an open-ended
key→value mapping, opaque to this module (`structpb.Value`). The module never
inspects a value, so scalar variants suffice. -/
inductive PValue where
  | nullV
  | boolV (b : Bool)
  | numV (n : Int)
  | strV (s : String)
deriving DecidableEq, Repr

/-- Modelled from the spec: `structpb.Struct` — a single nil-able map of
string keys to values. -/
structure PStruct where
  fields : Option (List (String × PValue))
deriving DecidableEq, Repr

/-- Association-list read, mirroring Go map indexing `m[k]`. -/
def mapGet (m : List (String × α)) (k : String) : Option α :=
  match m with
  | [] => none
  | (k', v) :: t => if k' = k then some v else mapGet t k

/-- Association-list write, mirroring Go map assignment `m[k] = v`. -/
def mapSet (m : List (String × α)) (k : String) (v : α) : List (String × α) :=
  match m with
  | [] => [(k, v)]
  | (k', v') :: t => if k' = k then (k', v) :: t else (k', v') :: mapSet t k v

/-- The `Ready` enum of the response schema (`v1beta1.Ready`). -/
inductive Ready where
  | unspecified
  | rfalse
  | rtrue
deriving DecidableEq, Repr

/-- The `Severity` enum of the response schema (`v1beta1.Severity`). -/
inductive Severity where
  | unspecified
  | fatal
  | warning
  | normal
deriving DecidableEq, Repr

/-- A diagnostic result entry (`v1beta1.Result`). -/
structure Result where
  severity : Severity
  message : String
deriving DecidableEq, Repr

/-- The mutually exclusive match variants of a resource selector
(`v1beta1.ResourceSelector_MatchName` / `_MatchLabels`). -/
inductive SelectorMatch where
  | byName (name : String)
  | byLabels (labels : List (String × String))
deriving DecidableEq, Repr

/-- A resource selector (`v1beta1.ResourceSelector`). -/
structure ResourceSelector where
  apiVersion : String
  kind : String
  matchOn : SelectorMatch
deriving DecidableEq, Repr

/-- The requirements section (`v1beta1.Requirements`), with its nil-able
`extra_resources` map keyed by caller-supplied request ID. -/
structure Requirements where
  extraResources : Option (List (String × ResourceSelector))
deriving DecidableEq, Repr

/-- A resource in the response schema (`v1beta1.Resource`): a nil-able
serialized body, connection details (bytes modelled as strings), and a
readiness enum whose Go zero value is `READY_UNSPECIFIED`. -/
structure FnResource where
  resource : Option PStruct
  connectionDetails : List (String × String)
  ready : Ready
deriving DecidableEq, Repr

/-- The desired/observed state section (`v1beta1.State`): a nil-able desired
composite slot and a nil-able map of composed resources keyed by name. -/
structure State where
  composite : Option FnResource
  resources : Option (List (String × FnResource))
deriving DecidableEq, Repr

/-- Response metadata (`v1beta1.ResponseMeta`): opaque tag plus a cache TTL
(a duration, modelled in nanoseconds). -/
structure ResponseMeta where
  tag : String
  ttl : Int
deriving DecidableEq, Repr

/-- Request metadata (`v1beta1.RequestMeta`): the opaque tag. -/
structure RequestMeta where
  tag : String
deriving DecidableEq, Repr

/-- The response message (`v1beta1.RunFunctionResponse`): four nil-able
sections plus the nil-able results slice. -/
structure RunFunctionResponse where
  meta : Option ResponseMeta
  desired : Option State
  context : Option PStruct
  requirements : Option Requirements
  results : Option (List Result)
deriving DecidableEq, Repr

/-- The request message (`v1beta1.RunFunctionRequest`), restricted to the
fields `To` reads: meta, observed, desired and context. -/
structure RunFunctionRequest where
  meta : Option RequestMeta
  observed : Option State
  desired : Option State
  context : Option PStruct
deriving DecidableEq, Repr

/-- Decidable equality for `Except`, needed to evaluate concrete scenarios. -/
instance {ε α : Type} [DecidableEq ε] [DecidableEq α] : DecidableEq (Except ε α) := fun a b =>
  match a, b with
  | .ok x, .ok y =>
    if h : x = y then .isTrue (congrArg Except.ok h)
    else .isFalse (fun hc => h (Except.ok.inj hc))
  | .error x, .error y =>
    if h : x = y then .isTrue (congrArg Except.error h)
    else .isFalse (fun hc => h (Except.error.inj hc))
  | .ok _, .error _ => .isFalse (fun hc => Except.noConfusion hc)
  | .error _, .ok _ => .isFalse (fun hc => Except.noConfusion hc)

/-- Modelled from the spec: a resource body handed to the composite/composed
setters. `resource.AsStruct` either serializes it to the structured-value
form or fails with an underlying error; `typeName` is what Go's `%T` prints
for the body. -/
structure ResourceBody where
  typeName : String
  asStruct : Except String PStruct
deriving DecidableEq, Repr

/-- Modelled from the spec: `resource.Composite` — a resource body plus
connection details. -/
structure Composite where
  resource : ResourceBody
  connectionDetails : List (String × String)
deriving DecidableEq, Repr

/-- Modelled from the spec: the readiness tri-state of `resource.DesiredComposed`
(`resource.Ready`): unspecified / false / true. -/
inductive Readiness where
  | unspecified
  | rfalse
  | rtrue
deriving DecidableEq, Repr

/-- Modelled from the spec: `resource.DesiredComposed` — a resource body plus
a readiness tri-state. -/
structure DesiredComposed where
  resource : ResourceBody
  ready : Readiness
deriving DecidableEq, Repr

/-- `schema.GroupVersionKind` from apimachinery. -/
structure GroupVersionKind where
  group : String
  version : String
  kind : String
deriving DecidableEq, Repr

/-- `GroupVersionKind.Empty()`: true iff all three fields are empty. -/
def GroupVersionKind.Empty (gvk : GroupVersionKind) : Bool :=
  gvk.group = "" && gvk.version = "" && gvk.kind = ""

/-- `gvk.GroupVersion().String()`: `"group/version"`, or just `"version"`
when the group is empty. -/
def GroupVersionKind.groupVersionString (gvk : GroupVersionKind) : String :=
  if gvk.group = "" then gvk.version else gvk.group ++ "/" ++ gvk.version

/-- Modelled from the spec: `errors.Wrapf` — `none` stays `none`, otherwise
the wrap message is prefixed to the underlying error's message. -/
def Wrapf (e : Option String) (msg : String) : Option String :=
  e.map (fun m => msg ++ ": " ++ m)

/-- Modelled from the spec: `resource.AsStruct` returns the serialized struct
and a nil error, or a nil struct and the serialization error. -/
def AsStruct (b : ResourceBody) : Option PStruct × Option String :=
  match b.asStruct with
  | .ok s => (some s, none)
  | .error e => (none, some e)

/-- `DefaultTTL = 1 * time.Minute`, in nanoseconds. -/
def DefaultTTL : Int := 60 * 1000000000

/-- `response.To`: bootstrap a response to the supplied request, copying the
request's tag (via the nil-tolerant getters), desired state and context. -/
def To (req : RunFunctionRequest) (ttl : Int) : RunFunctionResponse :=
  { meta := some { tag := (req.meta.map RequestMeta.tag).getD "", ttl := ttl }
    desired := req.desired
    context := req.context
    requirements := none
    results := none }

/-- `rsp.GetContext().GetFields()` as an `Option`. -/
def RunFunctionResponse.contextFields (rsp : RunFunctionResponse) :
    Option (List (String × PValue)) :=
  rsp.context.bind PStruct.fields

/-- `rsp.GetContext().GetFields()[k]`. -/
def RunFunctionResponse.contextField (rsp : RunFunctionResponse) (k : String) :
    Option PValue :=
  mapGet (rsp.contextFields.getD []) k

/-- Number of entries in the context fields map. -/
def RunFunctionResponse.contextSize (rsp : RunFunctionResponse) : Nat :=
  (rsp.contextFields.getD []).length

/-- `rsp.GetDesired().GetResources()[k]`. -/
def RunFunctionResponse.desiredResource (rsp : RunFunctionResponse) (k : String) :
    Option FnResource :=
  mapGet ((rsp.desired.bind State.resources).getD []) k

/-- `rsp.GetDesired().GetComposite()`. -/
def RunFunctionResponse.desiredComposite (rsp : RunFunctionResponse) :
    Option FnResource :=
  rsp.desired.bind State.composite

/-- `rsp.GetRequirements().GetExtraResources()[k]`. -/
def RunFunctionResponse.extraResource (rsp : RunFunctionResponse) (k : String) :
    Option ResourceSelector :=
  mapGet ((rsp.requirements.bind Requirements.extraResources).getD []) k

/-- `rsp.GetResults()`, with nil as the empty list. -/
def RunFunctionResponse.resultsList (rsp : RunFunctionResponse) : List Result :=
  rsp.results.getD []

/-- `response.SetContextKey`: if `rsp.GetContext().GetFields()` is nil the
context is replaced with a struct holding a fresh map; then
`rsp.Context.Fields[key] = v`. -/
def SetContextKey (rsp : RunFunctionResponse) (key : String) (v : PValue) :
    RunFunctionResponse :=
  let rsp1 := if rsp.contextFields = none
    then { rsp with context := some { fields := some [] } }
    else rsp
  { rsp1 with
    context := some { fields := some (mapSet (rsp1.contextFields.getD []) key v) } }

/-- `response.SetDesiredCompositeResource`: allocate `Desired` if nil, then
unconditionally overwrite the composite slot with the `AsStruct` result and
the input's connection details; the error (if any) is wrapped with the
offending type's name. -/
def SetDesiredCompositeResource (rsp : RunFunctionResponse) (xr : Composite) :
    RunFunctionResponse × Option String :=
  let desired0 := rsp.desired.getD { composite := none, resources := none }
  let (s, err) := AsStruct xr.resource
  ({ rsp with
      desired := some { desired0 with
        composite := some { resource := s
                            connectionDetails := xr.connectionDetails
                            ready := .unspecified } } },
   Wrapf err ("cannot convert " ++ xr.resource.typeName ++ " to desired composite resource"))

/-- The readiness remapping performed by the `switch` inside
`SetDesiredComposedResources`: resource tri-state → response `Ready` enum. -/
def mapReadiness : Readiness → Ready
  | .unspecified => .unspecified
  | .rfalse => .rfalse
  | .rtrue => .rtrue

/-- The `for name, dcd := range dcds` loop body of
`SetDesiredComposedResources`: serialize each body, returning the raw error
on the first failure, otherwise write `&Resource{Resource: s}` with the
remapped readiness under the entry's name. -/
def setDesiredComposedLoop (res : List (String × FnResource))
    (dcds : List (String × DesiredComposed)) :
    List (String × FnResource) × Option String :=
  match dcds with
  | [] => (res, none)
  | (name, dcd) :: rest =>
    match dcd.resource.asStruct with
    | .error e => (res, some e)
    | .ok s =>
      setDesiredComposedLoop
        (mapSet res name
          { resource := some s, connectionDetails := [], ready := mapReadiness dcd.ready })
        rest

/-- `response.SetDesiredComposedResources`: allocate `Desired` and its
`Resources` map if nil, then run the entry loop. The Go input is an unordered
map; it is modelled as an association list whose order is the iteration
order. -/
def SetDesiredComposedResources (rsp : RunFunctionResponse)
    (dcds : List (String × DesiredComposed)) :
    RunFunctionResponse × Option String :=
  let desired0 := rsp.desired.getD { composite := none, resources := none }
  let res0 := desired0.resources.getD []
  let (res, err) := setDesiredComposedLoop res0 dcds
  ({ rsp with desired := some { desired0 with resources := some res } }, err)

/-- `response.RequestExtraResourceByName`: validation checks for empty GVK,
ID and name (in that order), then allocate the requirements section and map
if nil and overwrite the entry under `id` with a match-name selector. -/
def RequestExtraResourceByName (rsp : RunFunctionResponse) (id name : String)
    (gvk : GroupVersionKind) : RunFunctionResponse × Option String :=
  if gvk.Empty then
    (rsp, some "cannot request extra resource by name with empty GVK")
  else if id = "" then
    (rsp, some "cannot request extra resource by name with empty ID")
  else if name = "" then
    (rsp, some "cannot request extra resource by empty name with empty name")
  else
    let req0 := rsp.requirements.getD { extraResources := none }
    let ex0 := req0.extraResources.getD []
    ({ rsp with
        requirements := some { extraResources := some (mapSet ex0 id
          { apiVersion := gvk.groupVersionString
            kind := gvk.kind
            matchOn := .byName name }) } },
     none)

/-- `response.RequestExtraResourceByLabels`: validation checks for empty GVK
and ID, then allocate the requirements section and map if nil and overwrite
the entry under `id` with a match-labels selector (the label set may be
empty). -/
def RequestExtraResourceByLabels (rsp : RunFunctionResponse) (id : String)
    (labels : List (String × String)) (gvk : GroupVersionKind) :
    RunFunctionResponse × Option String :=
  if gvk.Empty then
    (rsp, some "cannot request extra resource by name with empty GVK")
  else if id = "" then
    (rsp, some "cannot request extra resource by name with empty ID")
  else
    let req0 := rsp.requirements.getD { extraResources := none }
    let ex0 := req0.extraResources.getD []
    ({ rsp with
        requirements := some { extraResources := some (mapSet ex0 id
          { apiVersion := gvk.groupVersionString
            kind := gvk.kind
            matchOn := .byLabels labels }) } },
     none)

/-- `response.Fatal`: append a fatal result; the Go error argument is
modelled by its message (`err.Error()`). -/
def Fatal (rsp : RunFunctionResponse) (err : String) : RunFunctionResponse :=
  { rsp with results := some (rsp.resultsList ++ [{ severity := .fatal, message := err }]) }

/-- `response.Warning`: append a warning result; the Go error argument is
modelled by its message. -/
def Warning (rsp : RunFunctionResponse) (err : String) : RunFunctionResponse :=
  { rsp with results := some (rsp.resultsList ++ [{ severity := .warning, message := err }]) }

/-- `response.Normal`: append a normal result with the supplied message. -/
def Normal (rsp : RunFunctionResponse) (message : String) : RunFunctionResponse :=
  { rsp with results := some (rsp.resultsList ++ [{ severity := .normal, message := message }]) }

/-- `response.Normalf` delegates to `Normal`; `fmt.Sprintf` is modelled by
passing the already-formatted string. -/
def Normalf (rsp : RunFunctionResponse) (formatted : String) : RunFunctionResponse :=
  Normal rsp formatted

/-! ### Association-list lemmas -/

theorem mapGet_mapSet_self (m : List (String × α)) (k : String) (v : α) :
    mapGet (mapSet m k v) k = some v := by
  induction m with
  | nil => simp [mapSet, mapGet]
  | cons p t ih =>
    obtain ⟨k', v'⟩ := p
    by_cases h : k' = k <;> simp [mapSet, mapGet, h, ih]

theorem mapGet_mapSet_ne (m : List (String × α)) (k k' : String) (v : α)
    (h : k' ≠ k) : mapGet (mapSet m k v) k' = mapGet m k' := by
  induction m with
  | nil =>
    have h' : ¬ k = k' := fun hh => h hh.symm
    simp [mapSet, mapGet, h']
  | cons p t ih =>
    obtain ⟨k'', v''⟩ := p
    by_cases h2 : k'' = k
    · subst h2
      have h' : ¬ k'' = k' := fun hh => h hh.symm
      simp [mapSet, mapGet, h']
    · simp [mapSet, mapGet, h2, ih]

theorem length_mapSet_mapSet (m : List (String × α)) (k : String) (v v' : α) :
    (mapSet (mapSet m k v) k v').length = (mapSet m k v).length := by
  induction m with
  | nil => simp [mapSet]
  | cons p t ih =>
    obtain ⟨k'', v''⟩ := p
    by_cases h : k'' = k <;> simp [mapSet, h, ih]

/-! ### Shape lemmas for `SetContextKey` -/

theorem contextFields_setContextKey (rsp : RunFunctionResponse) (key : String)
    (v : PValue) :
    (SetContextKey rsp key v).contextFields =
      some (mapSet (rsp.contextFields.getD []) key v) := by
  cases hc : rsp.context with
  | none => simp [SetContextKey, RunFunctionResponse.contextFields, hc]
  | some st =>
    cases hf : st.fields with
    | none => simp [SetContextKey, RunFunctionResponse.contextFields, hc, hf]
    | some fs => simp [SetContextKey, RunFunctionResponse.contextFields, hc, hf]

theorem contextField_setContextKey (rsp : RunFunctionResponse) (key k' : String)
    (v : PValue) :
    (SetContextKey rsp key v).contextField k' =
      mapGet (mapSet (rsp.contextFields.getD []) key v) k' := by
  simp [RunFunctionResponse.contextField, contextFields_setContextKey]

theorem contextSize_setContextKey (rsp : RunFunctionResponse) (key : String)
    (v : PValue) :
    (SetContextKey rsp key v).contextSize =
      (mapSet (rsp.contextFields.getD []) key v).length := by
  simp [RunFunctionResponse.contextSize, contextFields_setContextKey]

/-! ### Shared concrete values for witnesses and counterexamples -/

/-- A fully specified GVK. -/
def gvk0 : GroupVersionKind :=
  { group := "example.org", version := "v1", kind := "Widget" }

/-- A selector already registered in `rsp0`. -/
def sel0 : ResourceSelector :=
  { apiVersion := "example.org/v1", kind := "Widget", matchOn := .byName "w" }

/-- A composed resource already registered in `rsp0`. -/
def res0 : FnResource :=
  { resource := none, connectionDetails := [], ready := .rtrue }

/-- A resource body that serializes successfully. -/
def okBody : ResourceBody :=
  { typeName := "v1.Bucket", asStruct := Except.ok { fields := some [("k", .strV "v")] } }

/-- A resource body whose serialization fails with the underlying error
message "boom". -/
def badBody : ResourceBody :=
  { typeName := "v1.Widget", asStruct := Except.error "boom" }

/-- A desired composed resource that serializes successfully. -/
def goodDcd : DesiredComposed := { resource := okBody, ready := .rtrue }

/-- A desired composed resource whose serialization fails. -/
def badDcd : DesiredComposed := { resource := badBody, ready := .unspecified }

/-- A composite whose body serializes successfully. -/
def okXr : Composite := { resource := okBody, connectionDetails := [("user", "pw")] }

/-- A composite whose body fails to serialize. -/
def badXr : Composite := { resource := badBody, connectionDetails := [("user", "pw")] }

/-- A response with every nested container already populated. -/
def rsp0 : RunFunctionResponse where
  meta := some { tag := "abc", ttl := DefaultTTL }
  desired := some { composite := some res0, resources := some [("db", res0)] }
  context := some { fields := some [("note", .strV "hello")] }
  requirements := some { extraResources := some [("req-0", sel0)] }
  results := some [{ severity := .normal, message := "old" }]

/-! ### Claim theorems -/

/-- C1: `To` builds a response whose meta carries the request's tag (via the
nil-tolerant getters) and the supplied TTL, and whose desired state and
context are the request's, unconditionally — the operation is total. -/
theorem To_copies_request (req : RunFunctionRequest) (ttl : Int) :
    (To req ttl).meta = some { tag := (req.meta.map RequestMeta.tag).getD "", ttl := ttl } ∧
    (To req ttl).desired = req.desired ∧
    (To req ttl).context = req.context := by
  exact ⟨rfl, rfl, rfl⟩

/-- C2: with an empty `id` or an empty GVK, both `RequestExtraResourceByName`
and `RequestExtraResourceByLabels` return a validation error and leave the
response — in particular its requirements map — completely unchanged. -/
theorem requestExtra_rejects_empty (rsp : RunFunctionResponse)
    (gvk : GroupVersionKind) (id name : String) (labels : List (String × String))
    (h : id = "" ∨ gvk.Empty = true) :
    ((RequestExtraResourceByName rsp id name gvk).2.isSome = true ∧
      (RequestExtraResourceByName rsp id name gvk).1 = rsp) ∧
    ((RequestExtraResourceByLabels rsp id labels gvk).2.isSome = true ∧
      (RequestExtraResourceByLabels rsp id labels gvk).1 = rsp) := by
  rcases h with h | h
  · subst h
    by_cases hg : gvk.Empty <;>
      simp [RequestExtraResourceByName, RequestExtraResourceByLabels, hg]
  · simp [RequestExtraResourceByName, RequestExtraResourceByLabels, h]

/-- Witness for C2 at a populated response, empty id and a valid GVK. -/
theorem requestExtra_rejects_empty_witness :
    ((RequestExtraResourceByName rsp0 "" "n" gvk0).2.isSome = true ∧
      (RequestExtraResourceByName rsp0 "" "n" gvk0).1 = rsp0) ∧
    ((RequestExtraResourceByLabels rsp0 "" [("a", "b")] gvk0).2.isSome = true ∧
      (RequestExtraResourceByLabels rsp0 "" [("a", "b")] gvk0).1 = rsp0) :=
  requestExtra_rejects_empty rsp0 gvk0 "" "n" [("a", "b")] (Or.inl rfl)

/-- C5: setting two distinct context keys keeps both mappings; setting the
same key twice stores the later value and leaves the map's size unchanged. -/
theorem setContextKey_pairs (rsp : RunFunctionResponse) (k1 k2 k : String)
    (v1 v2 v v' : PValue) (h : k1 ≠ k2) :
    (SetContextKey (SetContextKey rsp k1 v1) k2 v2).contextField k1 = some v1 ∧
    (SetContextKey (SetContextKey rsp k1 v1) k2 v2).contextField k2 = some v2 ∧
    (SetContextKey (SetContextKey rsp k v) k v').contextField k = some v' ∧
    (SetContextKey (SetContextKey rsp k v) k v').contextSize =
      (SetContextKey rsp k v).contextSize := by
  refine ⟨?_, ?_, ?_, ?_⟩
  · rw [contextField_setContextKey, mapGet_mapSet_ne _ _ _ _ h]
    rw [show (SetContextKey rsp k1 v1).contextFields.getD [] =
          mapSet (rsp.contextFields.getD []) k1 v1 from by
        rw [contextFields_setContextKey]; rfl]
    exact mapGet_mapSet_self _ _ _
  · rw [contextField_setContextKey]
    exact mapGet_mapSet_self _ _ _
  · rw [contextField_setContextKey]
    exact mapGet_mapSet_self _ _ _
  · rw [contextSize_setContextKey, contextSize_setContextKey]
    rw [show (SetContextKey rsp k v).contextFields.getD [] =
          mapSet (rsp.contextFields.getD []) k v from by
        rw [contextFields_setContextKey]; rfl]
    exact length_mapSet_mapSet _ _ _ _

/-- Witness for C5 at a populated response and concrete keys. -/
theorem setContextKey_pairs_witness :
    (SetContextKey (SetContextKey rsp0 "x" (.numV 1)) "y" (.numV 2)).contextField "x" =
      some (.numV 1) ∧
    (SetContextKey (SetContextKey rsp0 "x" (.numV 1)) "y" (.numV 2)).contextField "y" =
      some (.numV 2) ∧
    (SetContextKey (SetContextKey rsp0 "z" (.numV 3)) "z" (.numV 4)).contextField "z" =
      some (.numV 4) ∧
    (SetContextKey (SetContextKey rsp0 "z" (.numV 3)) "z" (.numV 4)).contextSize =
      (SetContextKey rsp0 "z" (.numV 3)).contextSize :=
  setContextKey_pairs rsp0 "x" "y" "z" (.numV 1) (.numV 2) (.numV 3) (.numV 4)
    (by decide)

/-- A call to one of the result appenders, with its message (for `Normalf`,
the already-formatted message). -/
inductive ResultCall where
  | fatalC (msg : String)
  | warningC (msg : String)
  | normalC (msg : String)
  | normalfC (msg : String)
deriving DecidableEq, Repr

/-- Dispatch one appender call. -/
def applyCall (rsp : RunFunctionResponse) : ResultCall → RunFunctionResponse
  | .fatalC m => Fatal rsp m
  | .warningC m => Warning rsp m
  | .normalC m => Normal rsp m
  | .normalfC m => Normalf rsp m

/-- Run a sequence of appender calls in order. -/
def applyCalls (rsp : RunFunctionResponse) : List ResultCall → RunFunctionResponse
  | [] => rsp
  | c :: t => applyCalls (applyCall rsp c) t

/-- The result entry an appender call produces. -/
def expectedResult : ResultCall → Result
  | .fatalC m => { severity := .fatal, message := m }
  | .warningC m => { severity := .warning, message := m }
  | .normalC m => { severity := .normal, message := m }
  | .normalfC m => { severity := .normal, message := m }

theorem resultsList_applyCall (rsp : RunFunctionResponse) (c : ResultCall) :
    (applyCall rsp c).resultsList = rsp.resultsList ++ [expectedResult c] := by
  cases c <;>
    simp [applyCall, Fatal, Warning, Normal, Normalf, expectedResult,
      RunFunctionResponse.resultsList]

theorem resultsList_applyCalls (rsp : RunFunctionResponse) (cs : List ResultCall) :
    (applyCalls rsp cs).resultsList = rsp.resultsList ++ cs.map expectedResult := by
  induction cs generalizing rsp with
  | nil => simp [applyCalls]
  | cons c t ih => simp [applyCalls, ih, resultsList_applyCall]

/-- A response with every section nil. -/
def emptyRsp : RunFunctionResponse :=
  { meta := none, desired := none, context := none, requirements := none, results := none }

/-- A concrete mixed sequence of appender calls. -/
def calls0 : List ResultCall :=
  [.fatalC "f", .warningC "w", .normalC "n", .normalfC "formatted"]

/-- C6 counterexample: on a response that already carries one result, a
single appender call (N = 1) yields a results sequence of length 2, not
length 1, refuting the claim for arbitrary responses. -/
theorem appendResults_counterexample :
    ¬ ((Fatal rsp0 "x").resultsList.length = 1) := by
  decide

/-- C6 (amended): each appender appends one entry; a sequence of N appender
calls extends the results sequence, in call order, by the N entries carrying
the producing appender's severity and message; when the response starts with
no results, the final sequence has length exactly N. No call fails. -/
theorem appendResults_spec (rsp : RunFunctionResponse) (cs : List ResultCall) :
    (applyCalls rsp cs).resultsList = rsp.resultsList ++ cs.map expectedResult ∧
    (rsp.resultsList = [] →
      (applyCalls rsp cs).resultsList = cs.map expectedResult ∧
      (applyCalls rsp cs).resultsList.length = cs.length) := by
  refine ⟨resultsList_applyCalls rsp cs, fun h => ?_⟩
  rw [resultsList_applyCalls, h]
  simp

/-- Witness for C6 at the empty response and a concrete mixed sequence. -/
theorem appendResults_spec_witness :
    (applyCalls emptyRsp calls0).resultsList = calls0.map expectedResult ∧
    (applyCalls emptyRsp calls0).resultsList.length = calls0.length :=
  (appendResults_spec emptyRsp calls0).2 rfl

/-! ### Shape lemmas for the desired-state setters -/

theorem getD_desired_resources (rsp : RunFunctionResponse) :
    ((rsp.desired.getD { composite := none, resources := none }).resources).getD [] =
      (rsp.desired.bind State.resources).getD [] := by
  cases rsp.desired <;> rfl

theorem getD_desired_composite (rsp : RunFunctionResponse) :
    (rsp.desired.getD { composite := none, resources := none }).composite =
      rsp.desired.bind State.composite := by
  cases rsp.desired <;> rfl

theorem setDesiredCompositeResource_eq (rsp : RunFunctionResponse) (xr : Composite) :
    SetDesiredCompositeResource rsp xr =
      ({ rsp with
          desired := some { rsp.desired.getD { composite := none, resources := none } with
            composite := some { resource := (AsStruct xr.resource).1
                                connectionDetails := xr.connectionDetails
                                ready := .unspecified } } },
       Wrapf (AsStruct xr.resource).2
         ("cannot convert " ++ xr.resource.typeName ++ " to desired composite resource")) := by
  unfold SetDesiredCompositeResource
  cases h : AsStruct xr.resource with
  | mk s err => simp [h]

theorem setDesiredComposedResources_eq (rsp : RunFunctionResponse)
    (dcds : List (String × DesiredComposed)) :
    SetDesiredComposedResources rsp dcds =
      ({ rsp with
          desired := some { rsp.desired.getD { composite := none, resources := none } with
            resources := some (setDesiredComposedLoop
              ((rsp.desired.getD { composite := none, resources := none }).resources.getD [])
              dcds).1 } },
       (setDesiredComposedLoop
         ((rsp.desired.getD { composite := none, resources := none }).resources.getD [])
         dcds).2) := by
  unfold SetDesiredComposedResources
  cases h : setDesiredComposedLoop
      ((rsp.desired.getD { composite := none, resources := none }).resources.getD []) dcds with
  | mk res err => simp [h]

theorem setDesiredComposedLoop_cons_ok (res : List (String × FnResource))
    (name : String) (dcd : DesiredComposed)
    (rest : List (String × DesiredComposed)) (s : PStruct)
    (hs : dcd.resource.asStruct = Except.ok s) :
    setDesiredComposedLoop res ((name, dcd) :: rest) =
      setDesiredComposedLoop
        (mapSet res name
          { resource := some s, connectionDetails := [], ready := mapReadiness dcd.ready })
        rest := by
  simp [setDesiredComposedLoop, hs]

theorem setDesiredComposedLoop_cons_error (res : List (String × FnResource))
    (name : String) (dcd : DesiredComposed)
    (rest : List (String × DesiredComposed)) (e : String)
    (he : dcd.resource.asStruct = Except.error e) :
    setDesiredComposedLoop res ((name, dcd) :: rest) = (res, some e) := by
  simp [setDesiredComposedLoop, he]

theorem setDesiredComposedLoop_ok_append (pre : List (String × DesiredComposed))
    (hpre : ∀ p ∈ pre, ∃ s, p.2.resource.asStruct = Except.ok s) :
    ∀ (res : List (String × FnResource)) (rest : List (String × DesiredComposed)),
      setDesiredComposedLoop res (pre ++ rest) =
        setDesiredComposedLoop (setDesiredComposedLoop res pre).1 rest := by
  induction pre with
  | nil => intro res rest; simp [setDesiredComposedLoop]
  | cons p t ih =>
    intro res rest
    obtain ⟨name, dcd⟩ := p
    obtain ⟨s, hs⟩ := hpre (name, dcd) (List.mem_cons_self _ _)
    have ht : ∀ q ∈ t, ∃ s', q.2.resource.asStruct = Except.ok s' :=
      fun q hq => hpre q (List.mem_cons_of_mem _ hq)
    rw [List.cons_append, setDesiredComposedLoop_cons_ok res name dcd (t ++ rest) s hs,
      setDesiredComposedLoop_cons_ok res name dcd t s hs]
    exact ih ht _ rest

theorem setDesiredComposedLoop_preserves (dcds : List (String × DesiredComposed))
    (k : String) (hk : k ∉ dcds.map Prod.fst) :
    ∀ res : List (String × FnResource),
      mapGet (setDesiredComposedLoop res dcds).1 k = mapGet res k := by
  induction dcds with
  | nil => intro res; simp [setDesiredComposedLoop]
  | cons p t ih =>
    intro res
    obtain ⟨name, dcd⟩ := p
    simp only [List.map_cons, List.mem_cons, not_or] at hk
    obtain ⟨hk1, hk2⟩ := hk
    cases hs : dcd.resource.asStruct with
    | error e => rw [setDesiredComposedLoop_cons_error res name dcd t e hs]
    | ok s =>
      rw [setDesiredComposedLoop_cons_ok res name dcd t s hs, ih hk2,
        mapGet_mapSet_ne _ _ _ _ hk1]

/-- C4: on an input whose iteration order hits a failing entry after the
well-formed prefix `pre`, `SetDesiredComposedResources` returns the failing
entry's error immediately: the outcome is exactly that of processing `pre`
alone (prefix entries written, the failing and later entries unprocessed),
and names absent from the input are never cleared. -/
theorem setDesired_fail_fast (rsp : RunFunctionResponse)
    (pre post : List (String × DesiredComposed)) (name : String)
    (bad : DesiredComposed) (e : String)
    (hpre : ∀ p ∈ pre, ∃ s, p.2.resource.asStruct = Except.ok s)
    (hbad : bad.resource.asStruct = Except.error e) :
    (SetDesiredComposedResources rsp (pre ++ (name, bad) :: post)).2 = some e ∧
    (SetDesiredComposedResources rsp (pre ++ (name, bad) :: post)).1 =
      (SetDesiredComposedResources rsp pre).1 ∧
    ∀ k, k ∉ (pre ++ (name, bad) :: post).map Prod.fst →
      (SetDesiredComposedResources rsp (pre ++ (name, bad) :: post)).1.desiredResource k =
        rsp.desiredResource k := by
  have hloop : ∀ res : List (String × FnResource),
      setDesiredComposedLoop res (pre ++ (name, bad) :: post) =
        ((setDesiredComposedLoop res pre).1, some e) := by
    intro res
    rw [setDesiredComposedLoop_ok_append pre hpre res ((name, bad) :: post)]
    simp [setDesiredComposedLoop, hbad]
  refine ⟨?_, ?_, ?_⟩
  · rw [setDesiredComposedResources_eq, hloop]
  · rw [setDesiredComposedResources_eq, setDesiredComposedResources_eq, hloop]
  · intro k hk
    simp only [List.map_append, List.map_cons, List.mem_append, List.mem_cons,
      not_or] at hk
    obtain ⟨hk1, hk2, hk3⟩ := hk
    rw [setDesiredComposedResources_eq]
    simp only [RunFunctionResponse.desiredResource, hloop]
    simp only [Option.some_bind, Option.getD_some]
    rw [setDesiredComposedLoop_preserves pre k (by simpa using hk1)]
    rw [getD_desired_resources]

/-- Witness for C4: a well-formed entry, then a failing one, then another
well-formed one, applied to a populated response. -/
theorem setDesired_fail_fast_witness :
    (SetDesiredComposedResources rsp0
        ([("a", goodDcd)] ++ ("b", badDcd) :: [("c", goodDcd)])).2 = some "boom" ∧
    (SetDesiredComposedResources rsp0
        ([("a", goodDcd)] ++ ("b", badDcd) :: [("c", goodDcd)])).1 =
      (SetDesiredComposedResources rsp0 [("a", goodDcd)]).1 ∧
    ∀ k, k ∉ (([("a", goodDcd)] ++ ("b", badDcd) :: [("c", goodDcd)]).map Prod.fst) →
      (SetDesiredComposedResources rsp0
          ([("a", goodDcd)] ++ ("b", badDcd) :: [("c", goodDcd)])).1.desiredResource k =
        rsp0.desiredResource k :=
  setDesired_fail_fast rsp0 [("a", goodDcd)] [("c", goodDcd)] "b" badDcd "boom"
    (by rintro p hp
        simp only [List.mem_singleton] at hp
        subst hp
        exact ⟨_, rfl⟩)
    rfl

/-- C7: the readiness remapping performed inside
`SetDesiredComposedResources` is total over the closed tri-state and maps
unspecified to READY_UNSPECIFIED, false to READY_FALSE and true to
READY_TRUE; the written entry carries exactly the remapped readiness. -/
theorem mapReadiness_total (rsp : RunFunctionResponse) (name : String)
    (dcd : DesiredComposed) (s : PStruct)
    (hs : dcd.resource.asStruct = Except.ok s) :
    mapReadiness .unspecified = .unspecified ∧
    mapReadiness .rfalse = .rfalse ∧
    mapReadiness .rtrue = .rtrue ∧
    (∀ d : Readiness, d = .unspecified ∨ d = .rfalse ∨ d = .rtrue) ∧
    (SetDesiredComposedResources rsp [(name, dcd)]).1.desiredResource name =
      some { resource := some s, connectionDetails := []
             ready := mapReadiness dcd.ready } := by
  refine ⟨rfl, rfl, rfl, fun d => by cases d <;> simp, ?_⟩
  rw [setDesiredComposedResources_eq]
  simp only [RunFunctionResponse.desiredResource, Option.some_bind, Option.getD_some]
  rw [setDesiredComposedLoop_cons_ok _ name dcd [] s hs]
  simp only [setDesiredComposedLoop]
  exact mapGet_mapSet_self _ _ _

/-- Witness for C7 at a populated response and a concrete entry. -/
theorem mapReadiness_total_witness :
    mapReadiness .unspecified = .unspecified ∧
    mapReadiness .rfalse = .rfalse ∧
    mapReadiness .rtrue = .rtrue ∧
    (∀ d : Readiness, d = .unspecified ∨ d = .rfalse ∨ d = .rtrue) ∧
    (SetDesiredComposedResources rsp0 [("a", goodDcd)]).1.desiredResource "a" =
      some { resource := some { fields := some [("k", .strV "v")] }
             connectionDetails := []
             ready := mapReadiness goodDcd.ready } :=
  mapReadiness_total rsp0 "a" goodDcd { fields := some [("k", .strV "v")] } rfl

/-- C10: even when serialization fails, `SetDesiredCompositeResource` has
already allocated the desired section and overwritten the composite slot
with a resource whose body is the nil serialization result and whose
connection details are the input's; the composed-resources map is untouched
and the write is not rolled back on error. -/
theorem setComposite_writes_even_on_error (rsp : RunFunctionResponse)
    (xr : Composite) (e : String)
    (hxr : xr.resource.asStruct = Except.error e) :
    ((SetDesiredCompositeResource rsp xr).2).isSome = true ∧
    ((SetDesiredCompositeResource rsp xr).1.desired).isSome = true ∧
    (SetDesiredCompositeResource rsp xr).1.desiredComposite =
      some { resource := none, connectionDetails := xr.connectionDetails
             ready := .unspecified } ∧
    ∀ k, (SetDesiredCompositeResource rsp xr).1.desiredResource k =
      rsp.desiredResource k := by
  rw [setDesiredCompositeResource_eq]
  refine ⟨?_, ?_, ?_, ?_⟩
  · simp [AsStruct, hxr, Wrapf]
  · simp
  · simp [RunFunctionResponse.desiredComposite, AsStruct, hxr]
  · intro k
    simp only [RunFunctionResponse.desiredResource, Option.some_bind]
    rw [getD_desired_resources]

/-- Witness for C10 at a populated response and a failing composite. -/
theorem setComposite_writes_even_on_error_witness :
    ((SetDesiredCompositeResource rsp0 badXr).2).isSome = true ∧
    ((SetDesiredCompositeResource rsp0 badXr).1.desired).isSome = true ∧
    (SetDesiredCompositeResource rsp0 badXr).1.desiredComposite =
      some { resource := none, connectionDetails := badXr.connectionDetails
             ready := .unspecified } ∧
    ∀ k, (SetDesiredCompositeResource rsp0 badXr).1.desiredResource k =
      rsp0.desiredResource k :=
  setComposite_writes_even_on_error rsp0 badXr "boom" rfl

/-- C8: `RequestExtraResourceByName` returns a validation error on an empty
name, leaving the response (hence the requirements map) unchanged, while
`RequestExtraResourceByLabels` accepts an empty label set and succeeds,
registering under `id` a selector that carries only the GVK and an empty
label match. -/
theorem byName_rejects_empty_name (rsp : RunFunctionResponse) (id : String)
    (gvk : GroupVersionKind) (hid : id ≠ "") (hgvk : gvk.Empty = false) :
    ((RequestExtraResourceByName rsp id "" gvk).2.isSome = true ∧
      (RequestExtraResourceByName rsp id "" gvk).1 = rsp) ∧
    ((RequestExtraResourceByLabels rsp id [] gvk).2 = none ∧
      (RequestExtraResourceByLabels rsp id [] gvk).1.extraResource id =
        some { apiVersion := gvk.groupVersionString, kind := gvk.kind
               matchOn := .byLabels [] }) := by
  refine ⟨⟨?_, ?_⟩, ?_, ?_⟩ <;>
    simp [RequestExtraResourceByName, RequestExtraResourceByLabels, hid, hgvk,
      RunFunctionResponse.extraResource, mapGet_mapSet_self]

/-- Witness for C8 at a populated response, a valid id and a valid GVK. -/
theorem byName_rejects_empty_name_witness :
    ((RequestExtraResourceByName rsp0 "req-1" "" gvk0).2.isSome = true ∧
      (RequestExtraResourceByName rsp0 "req-1" "" gvk0).1 = rsp0) ∧
    ((RequestExtraResourceByLabels rsp0 "req-1" [] gvk0).2 = none ∧
      (RequestExtraResourceByLabels rsp0 "req-1" [] gvk0).1.extraResource "req-1" =
        some { apiVersion := gvk0.groupVersionString, kind := gvk0.kind
               matchOn := .byLabels [] }) :=
  byName_rejects_empty_name rsp0 "req-1" gvk0 (by decide) (by decide)

/-- `n` occurs as a contiguous substring of `hay`. -/
def strContains (hay n : String) : Prop :=
  ∃ a b : List Char, hay.data = a ++ n.data ++ b

theorem strContains_length {hay n : String} (hc : strContains hay n) :
    n.data.length ≤ hay.data.length := by
  obtain ⟨a, b, hab⟩ := hc
  rw [hab, List.length_append, List.length_append]
  omega

/-- C9 counterexample: for a body of type "v1.Widget" failing with the
underlying error "boom", `SetDesiredComposedResources` returns the raw
"boom", which does not contain the type name — the composed setter neither
wraps the failure nor names the offending type, refuting the claim. -/
theorem conversionError_counterexample :
    (SetDesiredComposedResources rsp0 [("a", badDcd)]).2 = some "boom" ∧
    ¬ strContains "boom" "v1.Widget" := by
  constructor
  · rfl
  · intro hc
    exact absurd (strContains_length hc) (by decide)

/-- C9 (amended): when serialization fails, `SetDesiredCompositeResource`
returns a conversion error that wraps the underlying failure and names the
offending body's type, but `SetDesiredComposedResources` returns the
underlying serialization error unchanged — unwrapped and without naming the
type. -/
theorem conversionError_amended (rsp rsp2 : RunFunctionResponse)
    (xr : Composite) (name : String) (bad : DesiredComposed) (e e2 : String)
    (hxr : xr.resource.asStruct = Except.error e)
    (hbad : bad.resource.asStruct = Except.error e2) :
    (∃ msg, (SetDesiredCompositeResource rsp xr).2 = some msg ∧
      strContains msg xr.resource.typeName ∧ strContains msg e) ∧
    (SetDesiredComposedResources rsp2 [(name, bad)]).2 = some e2 := by
  constructor
  · refine ⟨("cannot convert " ++ xr.resource.typeName ++
        " to desired composite resource") ++ ": " ++ e, ?_, ?_, ?_⟩
    · rw [setDesiredCompositeResource_eq]
      simp [AsStruct, hxr, Wrapf]
    · exact ⟨"cannot convert ".data,
        (" to desired composite resource" ++ ": " ++ e).data,
        by simp [String.data_append, List.append_assoc]⟩
    · exact ⟨(("cannot convert " ++ xr.resource.typeName ++
          " to desired composite resource") ++ ": ").data, [],
        by simp [String.data_append, List.append_assoc]⟩
  · rw [setDesiredComposedResources_eq]
    simp only []
    rw [setDesiredComposedLoop_cons_error _ name bad [] e2 hbad]

/-- Witness for C9 on concrete failing bodies. -/
theorem conversionError_amended_witness :
    (∃ msg, (SetDesiredCompositeResource rsp0 badXr).2 = some msg ∧
      strContains msg badXr.resource.typeName ∧ strContains msg "boom") ∧
    (SetDesiredComposedResources emptyRsp [("b", badDcd)]).2 = some "boom" :=
  conversionError_amended rsp0 emptyRsp badXr "b" badDcd "boom" "boom" rfl rfl

theorem getD_requirements_extra (rsp : RunFunctionResponse) :
    ((rsp.requirements.getD { extraResources := none }).extraResources).getD [] =
      (rsp.requirements.bind Requirements.extraResources).getD [] := by
  cases rsp.requirements <;> rfl

/-- C3: every builder operation preserves the previously stored entries of
the nested containers, except the key it explicitly overwrites:
`SetContextKey` keeps every other context field; `SetDesiredCompositeResource`
keeps the whole composed-resources map; `SetDesiredComposedResources` keeps
the composite slot and every entry whose name is not in its input; the
extra-resource registrars keep every requirement under another id; and the
result appenders append one entry after all previous ones — so an
already-populated container is never replaced by an empty one, under
arbitrarily repeated calls. -/
theorem builders_preserve (rsp : RunFunctionResponse)
    (k k' : String) (v : PValue) (hk : k' ≠ k)
    (xr : Composite) (k3 : String)
    (dcds : List (String × DesiredComposed)) (k2 : String)
    (h2 : k2 ∉ dcds.map Prod.fst)
    (id id' nm : String) (gvk : GroupVersionKind)
    (labels : List (String × String)) (hid : id' ≠ id)
    (msg : String) :
    (SetContextKey rsp k v).contextField k' = rsp.contextField k' ∧
    (SetDesiredCompositeResource rsp xr).1.desiredResource k3 =
      rsp.desiredResource k3 ∧
    (SetDesiredComposedResources rsp dcds).1.desiredResource k2 =
      rsp.desiredResource k2 ∧
    (SetDesiredComposedResources rsp dcds).1.desiredComposite =
      rsp.desiredComposite ∧
    (RequestExtraResourceByName rsp id nm gvk).1.extraResource id' =
      rsp.extraResource id' ∧
    (RequestExtraResourceByLabels rsp id labels gvk).1.extraResource id' =
      rsp.extraResource id' ∧
    (Fatal rsp msg).resultsList =
      rsp.resultsList ++ [{ severity := .fatal, message := msg }] ∧
    (Warning rsp msg).resultsList =
      rsp.resultsList ++ [{ severity := .warning, message := msg }] ∧
    (Normal rsp msg).resultsList =
      rsp.resultsList ++ [{ severity := .normal, message := msg }] := by
  refine ⟨?_, ?_, ?_, ?_, ?_, ?_, ?_, ?_, ?_⟩
  · rw [contextField_setContextKey, mapGet_mapSet_ne _ _ _ _ hk]
    rfl
  · rw [setDesiredCompositeResource_eq]
    simp only [RunFunctionResponse.desiredResource, Option.some_bind]
    rw [getD_desired_resources]
  · rw [setDesiredComposedResources_eq]
    simp only [RunFunctionResponse.desiredResource, Option.some_bind, Option.getD_some]
    rw [setDesiredComposedLoop_preserves dcds k2 h2, getD_desired_resources]
  · rw [setDesiredComposedResources_eq]
    simp only [RunFunctionResponse.desiredComposite, Option.some_bind]
    rw [getD_desired_composite]
  · unfold RequestExtraResourceByName
    by_cases hg : gvk.Empty = true
    · simp [hg]
    by_cases he : id = ""
    · simp [hg, he]
    by_cases hn : nm = ""
    · simp [hg, he, hn]
    rw [if_neg hg, if_neg he, if_neg hn]
    simp only [RunFunctionResponse.extraResource, Option.some_bind, Option.getD_some]
    rw [mapGet_mapSet_ne _ _ _ _ hid, getD_requirements_extra]
  · unfold RequestExtraResourceByLabels
    by_cases hg : gvk.Empty = true
    · simp [hg]
    by_cases he : id = ""
    · simp [hg, he]
    rw [if_neg hg, if_neg he]
    simp only [RunFunctionResponse.extraResource, Option.some_bind, Option.getD_some]
    rw [mapGet_mapSet_ne _ _ _ _ hid, getD_requirements_extra]
  · simp [Fatal, RunFunctionResponse.resultsList]
  · simp [Warning, RunFunctionResponse.resultsList]
  · simp [Normal, RunFunctionResponse.resultsList]

/-- Witness for C3 at a populated response and concrete arguments. -/
theorem builders_preserve_witness :
    (SetContextKey rsp0 "x" (.numV 1)).contextField "note" = rsp0.contextField "note" ∧
    (SetDesiredCompositeResource rsp0 okXr).1.desiredResource "db" =
      rsp0.desiredResource "db" ∧
    (SetDesiredComposedResources rsp0 [("a", goodDcd)]).1.desiredResource "db" =
      rsp0.desiredResource "db" ∧
    (SetDesiredComposedResources rsp0 [("a", goodDcd)]).1.desiredComposite =
      rsp0.desiredComposite ∧
    (RequestExtraResourceByName rsp0 "req-1" "nm" gvk0).1.extraResource "req-0" =
      rsp0.extraResource "req-0" ∧
    (RequestExtraResourceByLabels rsp0 "req-1" [("l", "1")] gvk0).1.extraResource "req-0" =
      rsp0.extraResource "req-0" ∧
    (Fatal rsp0 "m").resultsList =
      rsp0.resultsList ++ [{ severity := .fatal, message := "m" }] ∧
    (Warning rsp0 "m").resultsList =
      rsp0.resultsList ++ [{ severity := .warning, message := "m" }] ∧
    (Normal rsp0 "m").resultsList =
      rsp0.resultsList ++ [{ severity := .normal, message := "m" }] :=
  builders_preserve rsp0 "x" "note" (.numV 1) (by decide) okXr "db"
    [("a", goodDcd)] "db" (by decide) "req-1" "req-0" "nm" gvk0
    [("l", "1")] (by decide) "m"

end FnSDK
